import Mathlib

/-!
Verification of the privilege/lifecycle core of the webflow repository.

The Go source performs OS calls (file creation, process spawning, window
messages).  We use a shallow embedding: every OS call is represented by a
field of an environment record giving the result the OS returned, and each
source function is translated to a Lean function from such an environment
to its return value together with the ordered list of externally visible
actions (events) it performs.  Temporal claims become statements about the
order of events in the emitted list; error-handling claims become
statements about the returned value.

Field-by-field correspondence with the source is documented on each
definition.
-/

namespace Webflow

/-- The elements of `l` strictly before the first occurrence of `b`
(all of `l` if `b` does not occur). -/
def beforeFirst {α : Type} [DecidableEq α] : List α → α → List α
  | [], _ => []
  | x :: xs, b => if x = b then [] else x :: beforeFirst xs b

/-! ## Self-Delete Protocol, Phase 2

Source: `platform/selfdelete_windows.go` (`DeleteRunningExe`,
`CreateDoneSignalFile`, `SignalFirstPhaseAndWait`) and
`installer/selfdelete.go` (`RunSecondPhase`). -/

/-- Results of the four OS calls made by `DeleteRunningExe`
(`platform/selfdelete_windows.go`): open the file with DELETE access,
rename the default data stream to `:deadbeef`, reopen, and set
POSIX-semantics delete disposition.  The function fails as soon as one
call fails. -/
structure DeleteRunningExeEnv where
  openOk : Bool
  renameStreamOk : Bool
  reopenOk : Bool
  setDispositionOk : Bool
  deriving DecidableEq, Repr

/-- `DeleteRunningExe` succeeds exactly when all four of its OS calls
succeed; each failing call makes it return the corresponding wrapped
error (collapsed here to `false`). -/
def DeleteRunningExe (e : DeleteRunningExeEnv) : Bool :=
  e.openOk && e.renameStreamOk && e.reopenOk && e.setDispositionOk

/-- Externally visible actions of a Phase 2 run, in program order. -/
inductive P2Event
  | createDoneAttempt
  | doneCreated
  | closeDoneHandle
  | posixDeleteAttempt
  | posixDeleted
  | renameAttempt
  | renamedAside
  | rebootDeleteScheduled
  | signalFirstPhase
  | waitFirstPhaseExit
  | deleteRenamedAttempt
  | removeInstallDirAttempt
  | tryDeleteSelfAttempt
  deriving DecidableEq, Repr

/-- OS-call results consumed by `RunSecondPhase`
(`installer/selfdelete.go`).
* `configOk`: `GetSecondPhaseConfig` parsed a nonempty original path
  (otherwise the process prints to stderr and exits immediately).
* `isTempCopy`: the running executable is named `_unins.tmp`
  (`CreateDoneSignalFile` only creates the marker in that case).
* `createDoneOk`: the `CreateFile(..., CREATE_NEW, ...)` call for the
  done marker succeeded.
* `dre`: results of the calls inside `DeleteRunningExe`.
* `renameOk`: `os.Rename` of the original to `<path>.removing` succeeded.
* `scheduleOk`: `MoveFileEx(..., MOVEFILE_DELAY_UNTIL_REBOOT)` succeeded.
* `wndNonzero`: the first-phase window handle from the command line is
  nonzero (`SignalFirstPhaseAndWait` returns at once on a zero handle).
* `survived`: Phase 2 was not killed by a job object while waiting for
  Phase 1 to exit (when `false` the trace stops after the signal).
* `deleteRenamedOk`: the post-wait `DeleteOriginalUninstaller` retry
  loop on the renamed file succeeded. -/
structure P2Env where
  configOk : Bool
  isTempCopy : Bool
  createDoneOk : Bool
  dre : DeleteRunningExeEnv
  renameOk : Bool
  scheduleOk : Bool
  wndNonzero : Bool
  survived : Bool
  deleteRenamedOk : Bool
  deriving DecidableEq, Repr

/-- Trace of `RunSecondPhase` (`installer/selfdelete.go`), following the
source line by line: parse config (exit on failure); create and hold the
done marker; attempt the POSIX delete of the original executable, falling
back to rename-aside plus reboot-scheduled delete; signal Phase 1 and wait
for it to exit; then (if still alive) retry-delete the renamed file if the
rename fallback was used, remove the install directory if the original is
gone, and finally attempt best-effort self deletion. -/
def RunSecondPhase (env : P2Env) : List P2Event :=
  if env.configOk = false then []
  else
    let deleted := DeleteRunningExe env.dre
    let doneEvents :=
      [P2Event.createDoneAttempt] ++
        (if env.isTempCopy && env.createDoneOk then [P2Event.doneCreated] else [])
    let deleteEvents :=
      [P2Event.posixDeleteAttempt] ++
        (if deleted then [P2Event.posixDeleted]
         else
           [P2Event.renameAttempt] ++
             (if env.renameOk then
                [P2Event.renamedAside] ++
                  (if env.scheduleOk then [P2Event.rebootDeleteScheduled] else [])
              else []))
    let signalEvents :=
      if env.wndNonzero then [P2Event.signalFirstPhase, P2Event.waitFirstPhaseExit] else []
    let post :=
      if env.survived then
        (if !deleted && env.renameOk then [P2Event.deleteRenamedAttempt] else []) ++
          (if deleted || (env.renameOk && env.deleteRenamedOk) then
             [P2Event.removeInstallDirAttempt]
           else []) ++
          [P2Event.tryDeleteSelfAttempt]
      else []
    doneEvents ++ deleteEvents ++ signalEvents ++ post

/-- A Phase 2 environment in which every OS call succeeds. -/
def p2AllOk : P2Env :=
  { configOk := true, isTempCopy := true, createDoneOk := true
    dre := { openOk := true, renameStreamOk := true, reopenOk := true, setDispositionOk := true }
    renameOk := true, scheduleOk := true, wndNonzero := true
    survived := true, deleteRenamedOk := true }

/-- A Phase 2 environment in which both the POSIX delete (the stream
rename is refused, as on a non-NTFS volume) and the rename fallback fail,
with a valid config and a live first-phase window. -/
def p2BothFail : P2Env :=
  { configOk := true, isTempCopy := true, createDoneOk := true
    dre := { openOk := true, renameStreamOk := false, reopenOk := true, setDispositionOk := true }
    renameOk := false, scheduleOk := false, wndNonzero := true
    survived := true, deleteRenamedOk := false }

/-- C1 counterexample: in the run `RunSecondPhase p2BothFail` the POSIX
delete and the rename fallback both fail, yet the completion signal is
still sent — while the original executable is present and unscheduled for
removal (no delete, no rename, no reboot-schedule event anywhere in the
trace). -/
theorem c1_counterexample :
    P2Event.signalFirstPhase ∈ RunSecondPhase p2BothFail ∧
    P2Event.posixDeleted ∉ RunSecondPhase p2BothFail ∧
    P2Event.renamedAside ∉ RunSecondPhase p2BothFail ∧
    P2Event.rebootDeleteScheduled ∉ RunSecondPhase p2BothFail := by
  decide

/-- C1 (amended): in every second-phase run with a valid config in which
the POSIX delete succeeds or the rename-aside fallback succeeds, the
completion signal is sent only after the original executable has been
deleted or renamed aside. -/
theorem c1_signal_only_after_removal :
    ∀ env : P2Env, env.configOk = true →
      DeleteRunningExe env.dre = true ∨ env.renameOk = true →
      P2Event.signalFirstPhase ∈ RunSecondPhase env →
      P2Event.posixDeleted ∈ beforeFirst (RunSecondPhase env) P2Event.signalFirstPhase ∨
      P2Event.renamedAside ∈ beforeFirst (RunSecondPhase env) P2Event.signalFirstPhase := by
  intro env
  obtain ⟨c, t, d, ⟨o1, o2, o3, o4⟩, r, s, w, v, x⟩ := env
  revert c t d o1 o2 o3 o4 r s w v x
  decide

/-- C1 witness: the amended theorem applied to the all-success run. -/
theorem c1_witness :
    P2Event.posixDeleted ∈ beforeFirst (RunSecondPhase p2AllOk) P2Event.signalFirstPhase ∨
    P2Event.renamedAside ∈ beforeFirst (RunSecondPhase p2AllOk) P2Event.signalFirstPhase :=
  c1_signal_only_after_removal p2AllOk rfl (Or.inl rfl) (by decide)

/-- C2: in every second-phase run with a valid config, running from the
temp copy, in which the marker creation call succeeds, the done marker is
created before the completion signal is sent, and the handle is never
closed by the process (no close event ever occurs in any trace). -/
theorem c2_done_marker_before_signal :
    ∀ env : P2Env, env.configOk = true → env.isTempCopy = true →
      env.createDoneOk = true →
      P2Event.doneCreated ∈ RunSecondPhase env ∧
      (P2Event.signalFirstPhase ∈ RunSecondPhase env →
        P2Event.doneCreated ∈ beforeFirst (RunSecondPhase env) P2Event.signalFirstPhase) ∧
      P2Event.closeDoneHandle ∉ RunSecondPhase env := by
  intro env
  obtain ⟨c, t, d, ⟨o1, o2, o3, o4⟩, r, s, w, v, x⟩ := env
  revert c t d o1 o2 o3 o4 r s w v x
  decide

/-- C2 witness: the theorem applied to the all-success run. -/
theorem c2_witness :
    P2Event.doneCreated ∈ RunSecondPhase p2AllOk ∧
    (P2Event.signalFirstPhase ∈ RunSecondPhase p2AllOk →
      P2Event.doneCreated ∈ beforeFirst (RunSecondPhase p2AllOk) P2Event.signalFirstPhase) ∧
    P2Event.closeDoneHandle ∉ RunSecondPhase p2AllOk :=
  c2_done_marker_before_signal p2AllOk rfl rfl rfl

/-! ## Self-Delete Protocol, Phase 1

Source: `RunFirstPhase` in `platform/selfdelete_windows.go`. -/

/-- Externally visible actions of a Phase 1 run, in program order.
`spawnSecondPhase detached` records whether the Phase 2 process was
started with `CREATE_BREAKAWAY_FROM_JOB` or with the plain retry;
`delayDeleteTempExe` records the retry parameters passed to
`DelayDeleteFile`. -/
inductive P1Event
  | createTempDir
  | copySelf
  | clearReadOnly
  | createSignalWindow
  | spawnSecondPhase (detached : Bool)
  | openProcessHandle
  | waitForSignalOrDeath
  | closeProcessHandle
  | delayDeleteTempExe (maxTries firstDelayMS subsequentDelayMS : Nat)
  | removeTempDir
  | removeAllTempDir
  | destroyWindow
  deriving DecidableEq, Repr

/-- Errors `RunFirstPhase` can return, one per early-return site. -/
inductive P1Err
  | createTempDirErr
  | getExeErr
  | copyErr
  | createWindowErr
  | startErr
  deriving DecidableEq, Repr

/-- OS-call results consumed by `RunFirstPhase`.
* `tempDirOk`: `createUniqueTempDir` succeeded.
* `getExeOk`: `os.Executable` succeeded.
* `copyOk`: `copyFile` of the running executable succeeded.
* `wndOk`: `createSignalWindow` succeeded.
* `startBreakawayOk`: `cmd.Start` with `CREATE_BREAKAWAY_FROM_JOB`
  succeeded; `startPlainOk`: the retry without the flag succeeded.
* `openProcOk`: `OpenProcess(SYNCHRONIZE)` on the spawned pid succeeded.
* `signalRcvd`: `waitForSignalOrProcessDeath` returned `true` (completion
  signal received) rather than `false` (Phase 2 died without signaling). -/
structure P1Env where
  tempDirOk : Bool
  getExeOk : Bool
  copyOk : Bool
  wndOk : Bool
  startBreakawayOk : Bool
  startPlainOk : Bool
  openProcOk : Bool
  signalRcvd : Bool
  deriving DecidableEq, Repr

/-- Result and trace of `RunFirstPhase`
(`platform/selfdelete_windows.go`), following the source: create the temp
directory, copy the running executable into it, clear the read-only
attribute, create the signal window (destroyed by a deferred cleanup on
every later return path), spawn Phase 2 (breakaway first, plain retry),
then wait for the completion signal or process death; if the signal was
not received, retry-delete the temp copy (13 tries, 50 ms then 250 ms
delays) and remove the temp directory.  Early failures remove the whole
temp directory tree and return the corresponding error. -/
def RunFirstPhase (env : P1Env) : Option P1Err × List P1Event :=
  if env.tempDirOk = false then (some P1Err.createTempDirErr, [])
  else if env.getExeOk = false then
    (some P1Err.getExeErr, [P1Event.createTempDir, P1Event.removeAllTempDir])
  else if env.copyOk = false then
    (some P1Err.copyErr, [P1Event.createTempDir, P1Event.removeAllTempDir])
  else if env.wndOk = false then
    (some P1Err.createWindowErr,
     [P1Event.createTempDir, P1Event.copySelf, P1Event.clearReadOnly,
      P1Event.removeAllTempDir])
  else
    let pre := [P1Event.createTempDir, P1Event.copySelf, P1Event.clearReadOnly,
                P1Event.createSignalWindow]
    if env.startBreakawayOk = false ∧ env.startPlainOk = false then
      (some P1Err.startErr, pre ++ [P1Event.removeAllTempDir, P1Event.destroyWindow])
    else
      let spawned := [P1Event.spawnSecondPhase env.startBreakawayOk]
      let cleanup :=
        if env.signalRcvd then []
        else [P1Event.delayDeleteTempExe 13 50 250, P1Event.removeTempDir]
      (none,
       pre ++ spawned ++ [P1Event.openProcessHandle, P1Event.waitForSignalOrDeath] ++
         (if env.openProcOk then [P1Event.closeProcessHandle] else []) ++
         cleanup ++ [P1Event.destroyWindow])

/-- A Phase 1 environment with successful setup in which Phase 2 died
without signaling. -/
def p1Crashed : P1Env :=
  { tempDirOk := true, getExeOk := true, copyOk := true, wndOk := true
    startBreakawayOk := true, startPlainOk := true, openProcOk := true
    signalRcvd := false }

/-- C3: in every Phase 1 run whose setup succeeded and whose Phase 2
process was spawned, if the process terminated without delivering the
completion signal then Phase 1 retry-deletes the temp copy (13 tries)
and removes the temp directory before returning success; if the signal
was received, Phase 1 returns success without deleting the temp copy or
the directory. -/
theorem c3_crash_cleanup :
    ∀ env : P1Env, env.tempDirOk = true → env.getExeOk = true →
      env.copyOk = true → env.wndOk = true →
      env.startBreakawayOk = true ∨ env.startPlainOk = true →
      (RunFirstPhase env).1 = none ∧
      (env.signalRcvd = false →
        P1Event.delayDeleteTempExe 13 50 250 ∈ (RunFirstPhase env).2 ∧
        P1Event.removeTempDir ∈ (RunFirstPhase env).2) ∧
      (env.signalRcvd = true →
        P1Event.delayDeleteTempExe 13 50 250 ∉ (RunFirstPhase env).2 ∧
        P1Event.removeTempDir ∉ (RunFirstPhase env).2 ∧
        P1Event.removeAllTempDir ∉ (RunFirstPhase env).2) := by
  intro env
  obtain ⟨a, b, c, d, e, f, g, h⟩ := env
  revert a b c d e f g h
  decide

/-- C3 witness: the theorem applied to the crash run. -/
theorem c3_witness :
    (RunFirstPhase p1Crashed).1 = none ∧
    P1Event.delayDeleteTempExe 13 50 250 ∈ (RunFirstPhase p1Crashed).2 ∧
    P1Event.removeTempDir ∈ (RunFirstPhase p1Crashed).2 :=
  have h := c3_crash_cleanup p1Crashed rfl rfl rfl rfl (Or.inl rfl)
  ⟨h.1, h.2.1 rfl⟩

/-! ## Elevation Oracle

Source: `EnsureElevated` in the elevation module (windows build). -/

/-- Result of the `windows.ShellExecute(runas, ...)` call. -/
inductive ShellExecOutcome
  | ok
  | cancelled
  | failedOther
  deriving DecidableEq, Repr

/-- OS-call results consumed by `EnsureElevated`.
* `elevQuery`: result of the internal token inspection; `none` means the
  query itself failed (the source then assumes not elevated).
* `getExeOk`: `os.Executable` succeeded.
* `shellExec`: result of the `runas` relaunch prompt. -/
structure ElevEnv where
  elevQuery : Option Bool
  getExeOk : Bool
  shellExec : ShellExecOutcome
  deriving DecidableEq, Repr

/-- The four ways a call to `EnsureElevated` can end. `exitedProcess`
models `os.Exit(0)`: the call does not return. `returnedOsError` covers
the executable-path lookup failure and any non-cancellation
`ShellExecute` error. -/
inductive EnsureElevatedOutcome
  | returnedNil
  | exitedProcess
  | returnedDeclined
  | returnedOsError
  deriving DecidableEq, Repr

/-- Events of an `EnsureElevated` call: at most one relaunch request. -/
inductive ElevEvent
  | relaunchWithRunas
  deriving DecidableEq, Repr

/-- Outcome and trace of `EnsureElevated`: if the token query reports
elevated, return nil at once with no relaunch; otherwise (also when the
query failed) look up the executable path and relaunch it with the
`runas` verb; on `ERROR_CANCELLED` return the distinct declined error,
on success call `os.Exit(0)`, on any other failure return the error. -/
def EnsureElevated (env : ElevEnv) : EnsureElevatedOutcome × List ElevEvent :=
  let elevated := env.elevQuery.getD false
  if elevated then (EnsureElevatedOutcome.returnedNil, [])
  else if env.getExeOk = false then (EnsureElevatedOutcome.returnedOsError, [])
  else
    match env.shellExec with
    | ShellExecOutcome.ok =>
        (EnsureElevatedOutcome.exitedProcess, [ElevEvent.relaunchWithRunas])
    | ShellExecOutcome.cancelled =>
        (EnsureElevatedOutcome.returnedDeclined, [ElevEvent.relaunchWithRunas])
    | ShellExecOutcome.failedOther =>
        (EnsureElevatedOutcome.returnedOsError, [ElevEvent.relaunchWithRunas])

/-- An environment where the caller is not elevated and the `runas`
relaunch fails with an error other than cancellation. -/
def elevShellFails : ElevEnv :=
  { elevQuery := some false, getExeOk := true
    shellExec := ShellExecOutcome.failedOther }

/-- C4 counterexample: when the caller is not elevated and `ShellExecute`
fails with an error other than `ERROR_CANCELLED`, `EnsureElevated`
returns a generic error — an outcome that is none of the three the claim
allows (immediate success, non-return, declined). -/
theorem c4_counterexample :
    (EnsureElevated elevShellFails).1 = EnsureElevatedOutcome.returnedOsError ∧
    (EnsureElevated elevShellFails).1 ≠ EnsureElevatedOutcome.returnedNil ∧
    (EnsureElevated elevShellFails).1 ≠ EnsureElevatedOutcome.exitedProcess ∧
    (EnsureElevated elevShellFails).1 ≠ EnsureElevatedOutcome.returnedDeclined := by
  decide

/-- C4 (amended): every call to `EnsureElevated` has exactly one of four
outcomes: if the process is elevated it returns success immediately with
no relaunch; if the prompt is accepted the process exits; if the user
rejects the prompt the distinct declined error is returned; and if the
path lookup or the relaunch call itself fails, a generic OS error is
returned. -/
theorem c4_outcomes :
    ∀ env : ElevEnv,
      (env.elevQuery = some true → EnsureElevated env = (EnsureElevatedOutcome.returnedNil, [])) ∧
      (env.elevQuery ≠ some true → env.getExeOk = true → env.shellExec = ShellExecOutcome.ok →
        (EnsureElevated env).1 = EnsureElevatedOutcome.exitedProcess) ∧
      (env.elevQuery ≠ some true → env.getExeOk = true →
        env.shellExec = ShellExecOutcome.cancelled →
        (EnsureElevated env).1 = EnsureElevatedOutcome.returnedDeclined) ∧
      ((EnsureElevated env).1 = EnsureElevatedOutcome.returnedNil ∨
       (EnsureElevated env).1 = EnsureElevatedOutcome.exitedProcess ∨
       (EnsureElevated env).1 = EnsureElevatedOutcome.returnedDeclined ∨
       (EnsureElevated env).1 = EnsureElevatedOutcome.returnedOsError) := by
  intro env
  obtain ⟨q, g, s⟩ := env
  revert g
  cases q with
  | none => cases s <;> decide
  | some b => cases b <;> cases s <;> decide

/-- C4 witness: an already-elevated caller gets immediate success with no
relaunch. -/
theorem c4_witness :
    EnsureElevated { elevQuery := some true, getExeOk := true, shellExec := ShellExecOutcome.ok } =
      (EnsureElevatedOutcome.returnedNil, []) :=
  (c4_outcomes { elevQuery := some true, getExeOk := true, shellExec := ShellExecOutcome.ok }).1 rfl

/-! ## De-Elevator

Source: `LaunchDeElevated`, `shellExecuteViaExplorer`,
`launchViaScheduledTask`, `launchWithShellToken`, `launchDirect` in the
de-elevation module (windows build). -/

/-- The launch strategies, in the priority order of the source. -/
inductive Strategy
  | shellDelegation
  | scheduledTask
  | shellToken
  | directLaunch
  deriving DecidableEq, Repr

/-- Error values of the De-Elevator.  Each leaf stands for a failing
strategy error (the wrapped low-level OS error of that strategy);
`allStrategiesFailed e` models
`fmt.Errorf("de-elevated launch: all strategies failed: %w", e)`. -/
inductive LaunchErr
  | shellExecuteErr
  | scheduledTaskErr
  | shellTokenErr
  | directErr
  | allStrategiesFailed (inner : LaunchErr)
  deriving DecidableEq, Repr

/-- The strategies whose failure an error value names (by unwrapping the
`%w` chain).  The `allStrategiesFailed` wrapper text does not name
individual strategies, so it contributes only its wrapped inner error. -/
def LaunchErr.mentionedStrategies : LaunchErr → List Strategy
  | LaunchErr.shellExecuteErr => [Strategy.shellDelegation]
  | LaunchErr.scheduledTaskErr => [Strategy.scheduledTask]
  | LaunchErr.shellTokenErr => [Strategy.shellToken]
  | LaunchErr.directErr => [Strategy.directLaunch]
  | LaunchErr.allStrategiesFailed e => e.mentionedStrategies

/-- OS-call results consumed by `LaunchDeElevated`.
* `elevated`: result of `IsElevated()`.
* `shellExecuteOk`: `shellExecuteViaExplorer` returned nil.
* `scheduledTaskOk`: `launchViaScheduledTask` returned nil.
* `shellTokenOk` and `shellTokenPid`: result of `launchWithShellToken`.
* `directOk` and `directPid`: result of `launchDirect` (used only when
  the caller is not elevated). -/
structure DeElevEnv where
  elevated : Bool
  shellExecuteOk : Bool
  scheduledTaskOk : Bool
  shellTokenOk : Bool
  shellTokenPid : Nat
  directOk : Bool
  directPid : Nat
  deriving DecidableEq, Repr

/-- Return value (pid, error) and attempted-strategy trace of
`LaunchDeElevated`: a non-elevated caller launches directly; an elevated
caller tries shell delegation, then the scheduled task, then the borrowed
shell token, stopping at the first success; shell delegation and the
scheduled task yield pid 0 on success because a third party creates the
process; if all three fail, the returned error wraps (only) the
shell-token error in the all-strategies-failed message. -/
def LaunchDeElevated (env : DeElevEnv) : (Nat × Option LaunchErr) × List Strategy :=
  if env.elevated = false then
    if env.directOk then ((env.directPid, none), [Strategy.directLaunch])
    else ((0, some LaunchErr.directErr), [Strategy.directLaunch])
  else if env.shellExecuteOk then ((0, none), [Strategy.shellDelegation])
  else if env.scheduledTaskOk then
    ((0, none), [Strategy.shellDelegation, Strategy.scheduledTask])
  else if env.shellTokenOk then
    ((env.shellTokenPid, none),
     [Strategy.shellDelegation, Strategy.scheduledTask, Strategy.shellToken])
  else
    ((0, some (LaunchErr.allStrategiesFailed LaunchErr.shellTokenErr)),
     [Strategy.shellDelegation, Strategy.scheduledTask, Strategy.shellToken])

/-- C5: for an elevated caller the strategies are attempted in the fixed
order shell delegation, scheduled task, shell token; each later strategy
is attempted only when every earlier one failed, and the function returns
at the first success. -/
theorem c5_strategy_order :
    ∀ env : DeElevEnv, env.elevated = true →
      (env.shellExecuteOk = true →
        (LaunchDeElevated env).2 = [Strategy.shellDelegation] ∧
        (LaunchDeElevated env).1 = (0, none)) ∧
      (env.shellExecuteOk = false → env.scheduledTaskOk = true →
        (LaunchDeElevated env).2 = [Strategy.shellDelegation, Strategy.scheduledTask] ∧
        (LaunchDeElevated env).1 = (0, none)) ∧
      (env.shellExecuteOk = false → env.scheduledTaskOk = false →
        (LaunchDeElevated env).2 =
          [Strategy.shellDelegation, Strategy.scheduledTask, Strategy.shellToken]) ∧
      (Strategy.scheduledTask ∈ (LaunchDeElevated env).2 → env.shellExecuteOk = false) ∧
      (Strategy.shellToken ∈ (LaunchDeElevated env).2 →
        env.shellExecuteOk = false ∧ env.scheduledTaskOk = false) := by
  intro env h
  obtain ⟨el, so, tk, ko, kp, go, gp⟩ := env
  simp only at h
  subst h
  cases so <;> cases tk <;> cases ko <;>
    simp [LaunchDeElevated]

/-- C5 witness: shell delegation available stops the chain at once. -/
theorem c5_witness :
    (LaunchDeElevated
        { elevated := true, shellExecuteOk := true, scheduledTaskOk := false
          shellTokenOk := false, shellTokenPid := 0, directOk := false, directPid := 0 }).2 =
      [Strategy.shellDelegation] :=
  ((c5_strategy_order
      { elevated := true, shellExecuteOk := true, scheduledTaskOk := false
        shellTokenOk := false, shellTokenPid := 0, directOk := false, directPid := 0 }
      rfl).1 rfl).1

/-- An elevated environment in which all three strategies fail. -/
def deElevAllFail : DeElevEnv :=
  { elevated := true, shellExecuteOk := false, scheduledTaskOk := false
    shellTokenOk := false, shellTokenPid := 0, directOk := false, directPid := 0 }

/-- C6 counterexample: when all three strategies fail, the returned error
wraps only the shell-token error: it names neither the shell-delegation
strategy nor the scheduled-task strategy, so it does not name every
strategy tried. -/
theorem c6_counterexample :
    (LaunchDeElevated deElevAllFail).1.2 =
      some (LaunchErr.allStrategiesFailed LaunchErr.shellTokenErr) ∧
    Strategy.shellDelegation ∉
      (LaunchErr.allStrategiesFailed LaunchErr.shellTokenErr).mentionedStrategies ∧
    Strategy.scheduledTask ∉
      (LaunchErr.allStrategiesFailed LaunchErr.shellTokenErr).mentionedStrategies := by
  decide

/-- C6 (amended): when all three de-elevation strategies fail,
`LaunchDeElevated` returns a single error that wraps only the last
(borrowed-shell-token) failure in the all-strategies-failed message; the
errors of the shell-delegation and scheduled-task attempts are discarded,
so only the shell-token strategy is named. -/
theorem c6_error_wraps_last_only :
    ∀ env : DeElevEnv, env.elevated = true → env.shellExecuteOk = false →
      env.scheduledTaskOk = false → env.shellTokenOk = false →
      (LaunchDeElevated env).1 =
        (0, some (LaunchErr.allStrategiesFailed LaunchErr.shellTokenErr)) ∧
      (LaunchErr.allStrategiesFailed LaunchErr.shellTokenErr).mentionedStrategies =
        [Strategy.shellToken] := by
  intro env h1 h2 h3 h4
  obtain ⟨el, so, tk, ko, kp, go, gp⟩ := env
  simp only at h1 h2 h3 h4
  subst h1; subst h2; subst h3; subst h4
  simp [LaunchDeElevated, LaunchErr.mentionedStrategies]

/-- C6 witness: the amended theorem at the all-fail environment. -/
theorem c6_witness :
    (LaunchDeElevated deElevAllFail).1 =
      (0, some (LaunchErr.allStrategiesFailed LaunchErr.shellTokenErr)) :=
  (c6_error_wraps_last_only deElevAllFail rfl rfl rfl rfl).1

/-- C8: successes through shell delegation or the scheduled task return
pid 0 with no error, and a nil error is returned exactly when one of the
strategies succeeded — so a zero pid with a nil error is always a success
outcome, and every failure carries a non-nil error. -/
theorem c8_zero_pid_success :
    ∀ env : DeElevEnv,
      (env.elevated = true → env.shellExecuteOk = true →
        (LaunchDeElevated env).1 = (0, none)) ∧
      (env.elevated = true → env.shellExecuteOk = false → env.scheduledTaskOk = true →
        (LaunchDeElevated env).1 = (0, none)) ∧
      ((LaunchDeElevated env).1.2 = none ↔
        (env.elevated = true ∧
          (env.shellExecuteOk = true ∨ env.scheduledTaskOk = true ∨
            env.shellTokenOk = true)) ∨
        (env.elevated = false ∧ env.directOk = true)) := by
  intro env
  obtain ⟨el, so, tk, ko, kp, go, gp⟩ := env
  cases el <;> cases so <;> cases tk <;> cases ko <;> cases go <;>
    simp [LaunchDeElevated]

/-- C8 witness: shell delegation unavailable, scheduled task available
gives success-without-handle. -/
theorem c8_witness :
    (LaunchDeElevated
        { elevated := true, shellExecuteOk := false, scheduledTaskOk := true
          shellTokenOk := false, shellTokenPid := 0, directOk := false, directPid := 0 }).1 =
      (0, none) :=
  (c8_zero_pid_success
      { elevated := true, shellExecuteOk := false, scheduledTaskOk := true
        shellTokenOk := false, shellTokenPid := 0, directOk := false, directPid := 0 }).2.1
    rfl rfl rfl

/-! ## Session Launcher

Source: `LaunchAsSessionUser` in `platform/session_windows.go`. -/

/-- Externally visible actions of a `LaunchAsSessionUser` call, in
program order.  Every constructor except `deElevatedAttempt` is a
session/token API call of the WTS path. -/
inductive SessEvent
  | deElevatedAttempt
  | wtsGetActiveConsoleSession
  | wtsQueryUserToken
  | duplicateToken
  | createEnvironmentBlock
  | createProcessAsUserDetached
  | createProcessAsUserAttached
  deriving DecidableEq, Repr

/-- Classifies the session/token APIs (active-console-session query,
user-token lookup and duplication, environment block, and
`CreateProcessAsUser`); delegation to `LaunchDeElevated` is not one. -/
def SessEvent.isSessionTokenApi : SessEvent → Bool
  | SessEvent.deElevatedAttempt => false
  | _ => true

/-- Errors of the WTS path, one per early-return site. -/
inductive SessErr
  | noActiveSession
  | queryUserTokenErr
  | duplicateTokenErr
  | envBlockErr
  | createProcessErr
  deriving DecidableEq, Repr

/-- OS-call results consumed by `LaunchAsSessionUser`.
* `isSystem`: `isRunningAsSystem()` (caller is S-1-5-18).
* `deElevOk` and `deElevPid`: result of the `LaunchDeElevated` call made
  for non-system callers.
* `sessionValid`: `WTSGetActiveConsoleSessionId` did not return the
  invalid-session marker `0xFFFFFFFF`.
* `queryTokenOk`, `dupTokenOk`, `envBlockOk`: the token lookup,
  duplication, and environment-block calls.
* `cpauDetachedOk`: `CreateProcessAsUser` with
  `CREATE_BREAKAWAY_FROM_JOB`; `cpauAttachedOk`: the retry without the
  flag; `cpauPid`: the created process id. -/
structure SessEnv where
  isSystem : Bool
  deElevOk : Bool
  deElevPid : Nat
  sessionValid : Bool
  queryTokenOk : Bool
  dupTokenOk : Bool
  envBlockOk : Bool
  cpauDetachedOk : Bool
  cpauAttachedOk : Bool
  cpauPid : Nat
  deriving DecidableEq, Repr

/-- Return value (pid, error) and trace of `LaunchAsSessionUser`
(`platform/session_windows.go`): a non-system caller first tries
`LaunchDeElevated` and returns its pid when it succeeds; otherwise (for
the system account, or when the delegation failed) the WTS path runs:
query the active console session, obtain and duplicate the session user
token, build the environment block, and create the process in the user
session, retrying once without job breakaway. -/
def LaunchAsSessionUser (env : SessEnv) : (Nat × Option SessErr) × List SessEvent :=
  let pre := if env.isSystem then [] else [SessEvent.deElevatedAttempt]
  if env.isSystem = false ∧ env.deElevOk = true then ((env.deElevPid, none), pre)
  else
    let t1 := pre ++ [SessEvent.wtsGetActiveConsoleSession]
    if env.sessionValid = false then ((0, some SessErr.noActiveSession), t1)
    else
      let t2 := t1 ++ [SessEvent.wtsQueryUserToken]
      if env.queryTokenOk = false then ((0, some SessErr.queryUserTokenErr), t2)
      else
        let t3 := t2 ++ [SessEvent.duplicateToken]
        if env.dupTokenOk = false then ((0, some SessErr.duplicateTokenErr), t3)
        else
          let t4 := t3 ++ [SessEvent.createEnvironmentBlock]
          if env.envBlockOk = false then ((0, some SessErr.envBlockErr), t4)
          else
            let t5 := t4 ++ [SessEvent.createProcessAsUserDetached]
            if env.cpauDetachedOk then ((env.cpauPid, none), t5)
            else
              let t6 := t5 ++ [SessEvent.createProcessAsUserAttached]
              if env.cpauAttachedOk then ((env.cpauPid, none), t6)
              else ((0, some SessErr.createProcessErr), t6)

/-- A non-system caller whose `LaunchDeElevated` delegation fails. -/
def sessDeElevFails : SessEnv :=
  { isSystem := false, deElevOk := false, deElevPid := 0
    sessionValid := true, queryTokenOk := true, dupTokenOk := true
    envBlockOk := true, cpauDetachedOk := true, cpauAttachedOk := true
    cpauPid := 7 }

/-- C9 counterexample: a non-system caller whose delegation to
`LaunchDeElevated` fails falls through to the WTS path and does touch the
session/token APIs (here the user-token lookup), contradicting the claim
that every non-system invocation completes without touching them. -/
theorem c9_counterexample :
    sessDeElevFails.isSystem = false ∧
    SessEvent.wtsQueryUserToken ∈ (LaunchAsSessionUser sessDeElevFails).2 ∧
    SessEvent.wtsQueryUserToken.isSessionTokenApi = true := by
  decide

/-- C9 (amended): every non-system invocation of `LaunchAsSessionUser`
attempts `LaunchDeElevated` first, and when the delegation succeeds the
call returns its pid having touched no session/token API; only when the
delegation fails does the WTS session/token path run as a fallback. -/
theorem c9_delegation_first :
    ∀ env : SessEnv, env.isSystem = false →
      (LaunchAsSessionUser env).2.head? = some SessEvent.deElevatedAttempt ∧
      (env.deElevOk = true →
        LaunchAsSessionUser env = ((env.deElevPid, none), [SessEvent.deElevatedAttempt]) ∧
        ∀ e ∈ (LaunchAsSessionUser env).2, e.isSessionTokenApi = false) := by
  intro env h
  obtain ⟨sys, de, dp, sv, qt, dt, eb, c1, c2, cp⟩ := env
  simp only at h
  subst h
  cases de <;> cases sv <;> cases qt <;> cases dt <;> cases eb <;> cases c1 <;> cases c2 <;>
    simp [LaunchAsSessionUser, SessEvent.isSessionTokenApi]

/-- C9 witness: the amended theorem at a non-system caller with a
successful delegation. -/
theorem c9_witness :
    LaunchAsSessionUser
        { isSystem := false, deElevOk := true, deElevPid := 42
          sessionValid := true, queryTokenOk := true, dupTokenOk := true
          envBlockOk := true, cpauDetachedOk := true, cpauAttachedOk := true
          cpauPid := 7 } =
      ((42, none), [SessEvent.deElevatedAttempt]) :=
  ((c9_delegation_first
      { isSystem := false, deElevOk := true, deElevPid := 42
        sessionValid := true, queryTokenOk := true, dupTokenOk := true
        envBlockOk := true, cpauDetachedOk := true, cpauAttachedOk := true
        cpauPid := 7 }
      rfl).2 rfl).1

/-! ## Residual Cleanup Scanner

Source: `tryDeleteUninstallDir` and `isOlderThan5Minutes` in
`platform/selfdelete_windows.go`. -/

/-- A Windows FILETIME split into its two 32-bit halves, as read from
`windows.Filetime`. -/
structure Filetime where
  lowDateTime : Nat
  highDateTime : Nat
  deriving DecidableEq, Repr

/-- Five minutes in 100-nanosecond FILETIME units, the staleness
threshold constant of the source. -/
def fiveMinutesIn100ns : Nat := 5 * 60 * 10000000

/-- `isOlderThan5Minutes` from the source: compose each FILETIME as
`high <<< 32 ||| low` (the unsigned 64-bit composition; both halves are
32-bit values, so no wraparound occurs) and report whether `now` is more
than the threshold beyond `ft`; a file time at or ahead of `now` is never
stale. -/
def isOlderThan5Minutes (ft now : Filetime) : Bool :=
  let ftVal := ft.highDateTime <<< 32 ||| ft.lowDateTime
  let nowVal := now.highDateTime <<< 32 ||| now.lowDateTime
  if nowVal > ftVal then (nowVal - ftVal) > fiveMinutesIn100ns else false

/-- Removal attempts `tryDeleteUninstallDir` can make: the temp
executable, the done marker, the directory after a successful marker
open, or the bare directory in the stale branch. -/
inductive ScanAction
  | removeTempExe
  | removeDoneFile
  | removeDir
  | removeStaleDir
  deriving DecidableEq, Repr

/-- Inputs of one `tryDeleteUninstallDir` call.
* `isSelfDir`: the candidate temp executable path equals the path of the
  running executable (case-insensitive).
* `dirOpenOk`: `CreateFile` on the directory with DELETE access and
  read-only sharing succeeded (a concurrent holder makes this fail).
* `getInfoOk`, `isDirectory`, `isReparsePoint`: results of
  `GetFileInformationByHandle` and the attribute checks.
* `doneOpenOk`: `CreateFile` on the done marker with DELETE access
  succeeded (fails when the marker is absent or still held open).
* `lastWriteTime` and `now`: the directory last-write FILETIME and the
  current system FILETIME.
* `removeTempExeOk`: `os.Remove` of the temp executable succeeded. -/
structure ScanEnv where
  isSelfDir : Bool
  dirOpenOk : Bool
  getInfoOk : Bool
  isDirectory : Bool
  isReparsePoint : Bool
  doneOpenOk : Bool
  lastWriteTime : Filetime
  now : Filetime
  removeTempExeOk : Bool
  deriving DecidableEq, Repr

/-- Removal attempts of `tryDeleteUninstallDir`
(`platform/selfdelete_windows.go`): skip the own directory; return on a
failed exclusive directory open, a failed information query, a
non-directory, or a reparse point; when the done marker cannot be opened
with delete access, remove the bare directory only in the stale case;
when the marker opens, remove the temp executable, and only if that
succeeded also the marker and the directory. -/
def tryDeleteUninstallDir (env : ScanEnv) : List ScanAction :=
  if env.isSelfDir = true then []
  else if env.dirOpenOk = false then []
  else if env.getInfoOk = false then []
  else if env.isDirectory = false ∨ env.isReparsePoint = true then []
  else if env.doneOpenOk = false then
    if isOlderThan5Minutes env.lastWriteTime env.now then [ScanAction.removeStaleDir]
    else []
  else
    ScanAction.removeTempExe ::
      (if env.removeTempExeOk then [ScanAction.removeDoneFile, ScanAction.removeDir] else [])

/-- C7: whenever the done marker cannot be opened with delete access and
the directory last-write time is within the 5-minute staleness threshold,
the scanner removes nothing from the candidate directory. -/
theorem c7_young_locked_untouched :
    ∀ env : ScanEnv, env.doneOpenOk = false →
      isOlderThan5Minutes env.lastWriteTime env.now = false →
      tryDeleteUninstallDir env = [] := by
  intro env h1 h2
  unfold tryDeleteUninstallDir
  rw [h1, h2]
  simp

/-- A young candidate directory (written at the current instant) whose
done marker is missing or locked. -/
def scanYoungLocked : ScanEnv :=
  { isSelfDir := false, dirOpenOk := true, getInfoOk := true
    isDirectory := true, isReparsePoint := false, doneOpenOk := false
    lastWriteTime := { lowDateTime := 1000, highDateTime := 2 }
    now := { lowDateTime := 1000, highDateTime := 2 }
    removeTempExeOk := true }

/-- C7 witness: the theorem at the young locked directory. -/
theorem c7_witness : tryDeleteUninstallDir scanYoungLocked = [] :=
  c7_young_locked_untouched scanYoungLocked rfl (by decide)

/-! ## Retry deletion

Source: `DelayDeleteFile`, `DeleteOriginalUninstaller`,
`ScheduleFileDelete` in `platform/selfdelete_windows.go`. -/

/-- Result of one `os.Remove` call: removed, failed with a not-exist
error, or failed with any other error. -/
inductive RemoveOutcome
  | removed
  | notExist
  | otherErr
  deriving DecidableEq, Repr

/-- The retry loop of `DelayDeleteFile`: attempt `i`, with `r` tries
remaining and `lastErr` the error of the previous failed attempt.  A
removal that succeeds returns nil; a not-exist failure also returns nil
(the file is already gone); any other failure records the error, sleeps,
and retries; when the tries are exhausted the last error is returned
(nil when the loop never ran). -/
def delayDeleteGo (outcome : Nat → RemoveOutcome) :
    Nat → Nat → Option RemoveOutcome → Option RemoveOutcome
  | _, 0, lastErr => lastErr
  | i, r + 1, _ =>
    match outcome i with
    | RemoveOutcome.removed => none
    | RemoveOutcome.notExist => none
    | RemoveOutcome.otherErr =>
        delayDeleteGo outcome (i + 1) r (some RemoveOutcome.otherErr)

/-- `DelayDeleteFile` over an attempt-outcome oracle; the two delay
parameters only control sleeping and are kept for signature fidelity. -/
def DelayDeleteFile (outcome : Nat → RemoveOutcome)
    (maxTries _firstDelayMS _subsequentDelayMS : Nat) : Option RemoveOutcome :=
  delayDeleteGo outcome 0 maxTries none

/-- `DeleteOriginalUninstaller`: the Inno Setup retry parameters. -/
def DeleteOriginalUninstaller (outcome : Nat → RemoveOutcome) : Option RemoveOutcome :=
  DelayDeleteFile outcome 13 50 250

/-- `ScheduleFileDelete`: same retry parameters. -/
def ScheduleFileDelete (outcome : Nat → RemoveOutcome) : Option RemoveOutcome :=
  DelayDeleteFile outcome 13 50 250

/-- Helper: the retry loop returns nil as soon as any reachable attempt
does not fail with a non-not-exist error. -/
theorem delayDeleteGo_none (outcome : Nat → RemoveOutcome) :
    ∀ r i lastErr, (∃ k, k < r ∧ outcome (i + k) ≠ RemoveOutcome.otherErr) →
      delayDeleteGo outcome i r lastErr = none := by
  intro r
  induction r with
  | zero =>
    intro i lastErr h
    obtain ⟨k, hk, _⟩ := h
    exact absurd hk (Nat.not_lt_zero k)
  | succ n ih =>
    intro i lastErr h
    obtain ⟨k, hk, hout⟩ := h
    match hcase : outcome i with
    | RemoveOutcome.removed => simp [delayDeleteGo, hcase]
    | RemoveOutcome.notExist => simp [delayDeleteGo, hcase]
    | RemoveOutcome.otherErr =>
      simp only [delayDeleteGo, hcase]
      apply ih
      match k with
      | 0 => exact absurd hcase (by simpa using hout)
      | k0 + 1 =>
        refine ⟨k0, Nat.lt_of_succ_lt_succ hk, ?_⟩
        simpa [Nat.add_assoc, Nat.add_comm 1 k0] using hout

/-- C10: `DelayDeleteFile` returns success whenever some attempt within
the try budget does not fail with a persistent error — in particular when
an attempt reports not-exist because the file is already absent or never
existed; consequently `DeleteOriginalUninstaller` and
`ScheduleFileDelete` report success on an already-missing file. -/
theorem c10_missing_file_success :
    ∀ (outcome : Nat → RemoveOutcome) (maxTries d1 d2 : Nat),
      ((∃ k, k < maxTries ∧ outcome k ≠ RemoveOutcome.otherErr) →
        DelayDeleteFile outcome maxTries d1 d2 = none) ∧
      (outcome 0 = RemoveOutcome.notExist →
        DeleteOriginalUninstaller outcome = none ∧ ScheduleFileDelete outcome = none) := by
  intro outcome maxTries d1 d2
  constructor
  · intro h
    unfold DelayDeleteFile
    apply delayDeleteGo_none
    simpa using h
  · intro h0
    have hx : ∃ k, k < 13 ∧ outcome k ≠ RemoveOutcome.otherErr :=
      ⟨0, by decide, by simp [h0]⟩
    constructor
    · unfold DeleteOriginalUninstaller DelayDeleteFile
      apply delayDeleteGo_none
      simpa using hx
    · unfold ScheduleFileDelete DelayDeleteFile
      apply delayDeleteGo_none
      simpa using hx

/-- C10 witness: deleting a file that never existed (every attempt
reports not-exist) succeeds for the plain retry loop and for both
wrappers. -/
theorem c10_witness :
    DelayDeleteFile (fun _ => RemoveOutcome.notExist) 13 50 250 = none ∧
    DeleteOriginalUninstaller (fun _ => RemoveOutcome.notExist) = none ∧
    ScheduleFileDelete (fun _ => RemoveOutcome.notExist) = none :=
  have h := c10_missing_file_success (fun _ => RemoveOutcome.notExist) 13 50 250
  ⟨h.1 ⟨0, by decide, by decide⟩, (h.2 rfl).1, (h.2 rfl).2⟩

end Webflow
